import Mathlib

/-!
Shallow embedding of the DNS-server program (src/main.py) and proofs of the
specification claims about it.

The program is a minimal authoritative DNS nameserver.  We embed:
  * the static zone configuration built at module load (the DOMAINS loop),
  * the resolution function dns_response,
  * the TCP framing helpers TCPRequestHandler.get_data / send_data,
  * the per-request error isolation of BaseRequestHandler.handle.

Wire-format parsing and serialisation are delegated by the program to the
external dnslib library; we model parsed queries and built replies as
structured values, and the parts of dnslib that the server logic itself
consults (the QTYPE name table and record class names) are embedded from
the dnslib sources (dnslib/dns.py, Bimap QTYPE).
-/

namespace DNSServer

/-- Record data, mirroring the dnslib record classes the configuration uses
(dnslib.A, dnslib.AAAA, dnslib.MX, dnslib.CNAME, dnslib.NS, dnslib.SOA).
The SOA times 5-tuple is flattened into the five named fields. -/
inductive RData where
  | A (ip : String)
  | AAAA (ip : List Nat)
  | MX (label : String)
  | CNAME (label : String)
  | NS (label : String)
  | SOA (mname : String) (rname : String)
      (serial refresh retry expire minimum : Nat)
deriving DecidableEq, Repr

/-- Runtime class name of a record value: Python `rdata.__class__.__name__`. -/
def RData.className : RData → String
  | .A _ => "A"
  | .AAAA _ => "AAAA"
  | .MX _ => "MX"
  | .CNAME _ => "CNAME"
  | .NS _ => "NS"
  | .SOA _ _ _ _ _ _ _ => "SOA"

/-- Spec-side predicate: the record is of type A (used to state what the
answer section of an A query must contain, independent of the code's
class-name mechanism). -/
def isARecord : RData → Bool
  | .A _ => true
  | _ => false

/-- Reverse QTYPE lookup `QTYPE[n]`, embedded from dnslib's Bimap QTYPE table
(dnslib/dns.py).  dnslib raises its parse-error type DNSError for numbers
absent from the table; we return none there.  Note the table renders the
wildcard query type 255 as "ANY" (not "*"). -/
def QTYPE_rev : Nat → Option String
  | 1 => some "A"
  | 2 => some "NS"
  | 5 => some "CNAME"
  | 6 => some "SOA"
  | 10 => some "NULL"
  | 12 => some "PTR"
  | 13 => some "HINFO"
  | 15 => some "MX"
  | 16 => some "TXT"
  | 17 => some "RP"
  | 18 => some "AFSDB"
  | 24 => some "SIG"
  | 25 => some "KEY"
  | 28 => some "AAAA"
  | 29 => some "LOC"
  | 33 => some "SRV"
  | 35 => some "NAPTR"
  | 36 => some "KX"
  | 37 => some "CERT"
  | 38 => some "A6"
  | 39 => some "DNAME"
  | 41 => some "OPT"
  | 42 => some "APL"
  | 43 => some "DS"
  | 44 => some "SSHFP"
  | 45 => some "IPSECKEY"
  | 46 => some "RRSIG"
  | 47 => some "NSEC"
  | 48 => some "DNSKEY"
  | 49 => some "DHCID"
  | 50 => some "NSEC3"
  | 51 => some "NSEC3PARAM"
  | 52 => some "TLSA"
  | 53 => some "HIP"
  | 55 => some "HIP"
  | 59 => some "CDS"
  | 60 => some "CDNSKEY"
  | 61 => some "OPENPGPKEY"
  | 62 => some "CSYNC"
  | 63 => some "ZONEMD"
  | 64 => some "SVCB"
  | 65 => some "HTTPS"
  | 99 => some "SPF"
  | 108 => some "EUI48"
  | 109 => some "EUI64"
  | 249 => some "TKEY"
  | 250 => some "TSIG"
  | 251 => some "IXFR"
  | 252 => some "AXFR"
  | 255 => some "ANY"
  | 256 => some "URI"
  | 257 => some "CAA"
  | 32768 => some "TA"
  | 32769 => some "DLV"
  | _ => none

/-- Forward QTYPE lookup `getattr(QTYPE, name)`, embedded from the same dnslib
table, restricted to the six class names that can occur as
`rdata.__class__.__name__` for configured records (the only names the server
passes to getattr); the default 0 branch is never reached by the program. -/
def QTYPE_attr : String → Nat
  | "A" => 1
  | "NS" => 2
  | "CNAME" => 5
  | "SOA" => 6
  | "MX" => 15
  | "AAAA" => 28
  | _ => 0

/-- Python `DomainName.__getattr__`: `name.label == label + "." + name`. -/
def childName (parent label : String) : String := label ++ "." ++ parent

/-- One entry of the DOMAINS configuration after the module-load loop has
derived its SOA record, NS records and record mapping.  `records` is the
Python dict in insertion order (keys are distinct). -/
structure Domain where
  name : String
  ip : String
  ttl : Nat
  soa_record : RData
  ns_records : List RData
  records : List (String × List RData)
deriving DecidableEq, Repr

/-- The derivation the startup loop performs for one configured
(name, ip, ttl) triple (src/main.py lines 16-44). -/
def mkDomain (name ip : String) (ttl : Nat) : Domain :=
  let soa : RData := .SOA (childName name "ns1") (childName name "andrei")
      201307231 (60 * 60 * 1) (60 * 60 * 3) (60 * 60 * 24) (60 * 60 * 1)
  let ns : List RData := [.NS (childName name "ns1"), .NS (childName name "ns2")]
  { name := name
    ip := ip
    ttl := ttl
    soa_record := soa
    ns_records := ns
    records :=
      [ (name, [.A ip, .AAAA (List.replicate 16 0), .MX (childName name "mail"), soa] ++ ns),
        (childName name "ns1", [.A ip]),
        (childName name "ns2", [.A ip]),
        (childName name "mail", [.A ip]),
        (childName name "andrei", [.CNAME name]) ] }

/-- The configured zone list of the program (src/main.py lines 8-14):
a single zone example.com. with ip 192.168.0.100 and ttl 60 * 5. -/
def DOMAINS : List Domain := [mkDomain "example.com." "192.168.0.100" (60 * 5)]

/-- Question section entry of a parsed query: qname (as the string rendering
of the dnslib DNSLabel, trailing dot included) and numeric qtype. -/
structure DNSQuestion where
  qname : String
  qtype : Nat
deriving DecidableEq, Repr

/-- The part of a parsed query that dns_response reads: the transaction id
from the header and the question. -/
structure Query where
  id : Nat
  q : DNSQuestion
deriving DecidableEq, Repr

/-- A resource record as placed into a reply section by dnslib.RR(...). -/
structure RR where
  rname : String
  rtype : Nat
  rclass : Nat
  ttl : Nat
  rdata : RData
deriving DecidableEq, Repr

/-- The header fields of the built reply that the server sets or copies
(id from the query, qr, aa, ra); all other dnslib header fields keep their
defaults and are never touched by the server logic. -/
structure DNSHeader where
  id : Nat
  qr : Nat
  aa : Nat
  ra : Nat
deriving DecidableEq, Repr

/-- The reply under construction: dnslib DNSRecord with its header, question,
answer list rr (add_answer appends), authority list auth (add_auth appends)
and additional list ar (add_ar appends). -/
structure Reply where
  header : DNSHeader
  q : DNSQuestion
  rr : List RR
  auth : List RR
  ar : List RR
deriving DecidableEq, Repr

/-- Python `qn == domain["name"] or qn.endswith("." + domain["name"])`. -/
def matchesDomain (qn : String) (d : Domain) : Bool :=
  qn == d.name || List.isSuffixOf ("." ++ d.name).data qn.data

/-- The body of the per-domain `if` block of dns_response (src/main.py
lines 65-88): append matching answers for the exact qname, then the zone's
NS records to the additional section, then its SOA to the authority
section.  Outside the block the reply is returned unchanged. -/
def processDomain (qn qt : String) (reply : Reply) (d : Domain) : Reply :=
  if matchesDomain qn d then
    let reply :=
      d.records.foldl
        (fun r pr =>
          if pr.1 == qn then
            pr.2.foldl
              (fun r2 rdata =>
                -- `if qt in ["*", rqt]` with rqt the record's class name
                if qt == "*" || qt == rdata.className then
                  { r2 with rr := r2.rr ++
                      [RR.mk qn (QTYPE_attr rdata.className) 1 d.ttl rdata] }
                else r2)
              r
          else r)
        reply
    let reply :=
      d.ns_records.foldl
        (fun r rdata =>
          { r with ar := r.ar ++ [RR.mk d.name (QTYPE_attr "NS") 1 d.ttl rdata] })
        reply
    { reply with auth := reply.auth ++
        [RR.mk d.name (QTYPE_attr "SOA") 1 d.ttl d.soa_record] }
  else reply

/-- dns_response (src/main.py lines 46-94), parameterised by the configured
domain list it iterates over (the program reads the module-level DOMAINS).
The reply is initialised with the query's id and qr=aa=ra=1 and the query's
question; then `qt = QTYPE[qtype]` is evaluated — dnslib raises DNSError
there for a qtype absent from its table (modelled as the error branch), in
which case the reply just built is discarded and nothing is returned; then
every configured domain is processed in order. -/
def dns_responseWith (domains : List Domain) (request : Query) : Except String Reply :=
  let reply : Reply :=
    { header := ⟨request.id, 1, 1, 1⟩, q := request.q, rr := [], auth := [], ar := [] }
  let qn := request.q.qname
  match QTYPE_rev request.q.qtype with
  | none => .error "dnslib.DNSError: QTYPE invalid reverse lookup"
  | some qt => .ok (domains.foldl (processDomain qn qt) reply)

/-- dns_response on the program's own configuration. -/
def dns_response (request : Query) : Except String Reply :=
  dns_responseWith DOMAINS request

deriving instance DecidableEq for Except

/-- ASCII whitespace bytes, the default strip set of Python bytes.strip(). -/
def asciiWhitespace (b : Nat) : Bool :=
  b == 32 || b == 9 || b == 10 || b == 13 || b == 11 || b == 12

/-- Python bytes.strip() with no argument: drop ASCII whitespace bytes from
both ends. -/
def stripBytes (l : List Nat) : List Nat :=
  ((l.dropWhile asciiWhitespace).reverse.dropWhile asciiWhitespace).reverse

/-- struct.unpack(">H", data[:2])[0]: big-endian 16-bit read of the first two
bytes; struct raises if fewer than two bytes are available. -/
def unpackH : List Nat → Except String Nat
  | b0 :: b1 :: _ => .ok (b0 * 256 + b1)
  | _ => .error "struct.error: unpack requires a buffer of 2 bytes"

/-- struct.pack(">H", n): two big-endian bytes; struct raises if n does not
fit in 16 bits. -/
def packH (n : Nat) : Except String (List Nat) :=
  if n < 65536 then .ok [n / 256, n % 256]
  else .error "struct.error: H format requires 0 <= number <= 65535"

/-- TCPRequestHandler.get_data (src/main.py lines 112-119), applied to the
byte buffer returned by `self.request.recv(8192)`: strip the buffer, read
the declared big-endian length from its first two bytes, fail on a
declared/actual mismatch in either direction, and return the bytes after
the two-byte length on exact equality. -/
def get_data (buf : List Nat) : Except String (List Nat) :=
  let data := stripBytes buf
  match unpackH data with
  | .error e => .error e
  | .ok sz =>
    if sz < data.length - 2 then .error "Wrong size of TCP packet"
    else if sz > data.length - 2 then .error "Too big TCP packet"
    else .ok (data.drop 2)

/-- TCPRequestHandler.send_data (src/main.py lines 121-123): the byte buffer
written to the socket, namely the 2-byte big-endian length followed by the
payload. -/
def send_data (payload : List Nat) : Except String (List Nat) :=
  (packH payload.length).map (fun sz => sz ++ payload)

/-- One send followed by the peer's receive: the peer's recv(8192) yields at
most the first 8192 bytes of what was written (single-segment delivery),
and get_data parses them. -/
def tcpRoundTrip (payload : List Nat) : Except String (List Nat) :=
  (send_data payload).bind (fun out => get_data (out.take 8192))

/-- Outcome of BaseRequestHandler.handle for one request: either a response
was sent, or an exception was caught by the `except Exception` clause and
logged via traceback.print_exc, after which handle returns normally. -/
inductive HandleOutcome where
  | replied : HandleOutcome
  | logged : String → HandleOutcome
deriving DecidableEq, Repr

/-- BaseRequestHandler.handle (src/main.py lines 101-109): run get_data, then
resolution, then send_data inside one try block; any error from any stage is
caught and logged and the handler returns normally. -/
def handleRequest (getData : Except String (List Nat))
    (resolve : List Nat → Except String Reply)
    (send : Reply → Except String Unit) : HandleOutcome :=
  match getData with
  | .error e => .logged e
  | .ok d =>
    match resolve d with
    | .error e => .logged e
    | .ok reply =>
      match send reply with
      | .error e => .logged e
      | .ok _ => .replied

/-- Answer records one owner-name entry contributes for query name qn and
rendered query type qt. -/
def answersFromRRs (qn qt : String) (ttl : Nat) (rrs : List RData) : List RR :=
  (rrs.filter (fun rdata => qt == "*" || qt == rdata.className)).map
    (fun rdata => RR.mk qn (QTYPE_attr rdata.className) 1 ttl rdata)

/-- Answer records a whole record mapping contributes. -/
def answersFromRecords (qn qt : String) (ttl : Nat)
    (records : List (String × List RData)) : List RR :=
  (records.filter (fun pr => pr.1 == qn)).flatMap
    (fun pr => answersFromRRs qn qt ttl pr.2)

/-- Answer records a matched domain contributes. -/
def domainAnswers (qn qt : String) (d : Domain) : List RR :=
  answersFromRecords qn qt d.ttl d.records

/-- Additional-section records a matched domain contributes: its NS records,
rname = zone apex, ttl = zone ttl. -/
def domainNS (d : Domain) : List RR :=
  d.ns_records.map (fun rdata => RR.mk d.name (QTYPE_attr "NS") 1 d.ttl rdata)

/-- Authority-section record a matched domain contributes: its SOA record,
rname = zone apex, ttl = zone ttl. -/
def domainSOA (d : Domain) : RR :=
  RR.mk d.name (QTYPE_attr "SOA") 1 d.ttl d.soa_record

/-- A two-zone configuration in which both zones match the query name
sub.example.com. (the first by apex equality, the second by suffix match);
used to settle the multiple-matching-zones claim. -/
def twoZones : List Domain :=
  [mkDomain "sub.example.com." "10.0.0.1" 100,
   mkDomain "example.com." "192.168.0.100" (60 * 5)]

/-!  Characterisation lemmas for the imperative loops of dns_response. -/

/-- The innermost answer loop appends exactly the type-matching records. -/
theorem foldl_answers (qn qt : String) (ttl : Nat) (rrs : List RData) : ∀ (r : Reply),
    rrs.foldl
      (fun r2 rdata =>
        if qt == "*" || qt == rdata.className then
          { r2 with rr := r2.rr ++ [RR.mk qn (QTYPE_attr rdata.className) 1 ttl rdata] }
        else r2) r
    = { r with rr := r.rr ++ answersFromRRs qn qt ttl rrs } := by
  induction rrs with
  | nil => intro r; simp [answersFromRRs]
  | cons rdata rrs ih =>
    intro r
    rw [List.foldl_cons]
    by_cases h : (qt == "*" || qt == rdata.className) = true
    · rw [if_pos h, ih]
      simp [answersFromRRs, List.filter_cons, h]
    · rw [if_neg h, ih]
      simp [answersFromRRs, List.filter_cons, h]

/-- The owner-name loop appends exactly the answers of the entries whose name
equals the query name. -/
theorem foldl_records (qn qt : String) (ttl : Nat)
    (records : List (String × List RData)) : ∀ (r : Reply),
    records.foldl
      (fun r pr =>
        if pr.1 == qn then
          pr.2.foldl
            (fun r2 rdata =>
              if qt == "*" || qt == rdata.className then
                { r2 with rr := r2.rr ++
                    [RR.mk qn (QTYPE_attr rdata.className) 1 ttl rdata] }
              else r2)
            r
        else r) r
    = { r with rr := r.rr ++ answersFromRecords qn qt ttl records } := by
  induction records with
  | nil => intro r; simp [answersFromRecords]
  | cons pr records ih =>
    intro r
    rw [List.foldl_cons]
    by_cases h : (pr.1 == qn) = true
    · rw [if_pos h, foldl_answers, ih]
      simp [answersFromRecords, List.filter_cons, h, List.append_assoc]
    · rw [if_neg h, ih]
      simp [answersFromRecords, List.filter_cons, h]

/-- The NS loop appends exactly the zone's NS records to the additional
section. -/
theorem foldl_ns (apex : String) (ttl : Nat) (nss : List RData) : ∀ (r : Reply),
    nss.foldl
      (fun r rdata => { r with ar := r.ar ++ [RR.mk apex (QTYPE_attr "NS") 1 ttl rdata] }) r
    = { r with ar := r.ar ++ nss.map (fun rdata => RR.mk apex (QTYPE_attr "NS") 1 ttl rdata) } := by
  induction nss with
  | nil => intro r; simp
  | cons rdata nss ih =>
    intro r
    rw [List.foldl_cons, ih]
    simp

/-- Effect of one iteration of the domain loop, as an explicit update of the
three sections. -/
theorem processDomain_eq (qn qt : String) (r : Reply) (d : Domain) :
    processDomain qn qt r d =
      if matchesDomain qn d then
        { r with rr := r.rr ++ domainAnswers qn qt d,
                 auth := r.auth ++ [domainSOA d],
                 ar := r.ar ++ domainNS d }
      else r := by
  unfold processDomain
  by_cases h : matchesDomain qn d = true
  · rw [if_pos h, if_pos h, foldl_records]
    dsimp only
    rw [foldl_ns]
    simp [domainAnswers, domainSOA, domainNS]
  · rw [if_neg h, if_neg h]

/-- The whole domain loop: every matching domain, in configuration order,
contributes its answers, its SOA and its NS records. -/
theorem foldl_domains (qn qt : String) (ds : List Domain) : ∀ (r : Reply),
    ds.foldl (processDomain qn qt) r =
      { r with rr := r.rr ++ (ds.filter (matchesDomain qn)).flatMap (domainAnswers qn qt),
               auth := r.auth ++ (ds.filter (matchesDomain qn)).map domainSOA,
               ar := r.ar ++ (ds.filter (matchesDomain qn)).flatMap domainNS } := by
  induction ds with
  | nil => intro r; simp
  | cons d ds ih =>
    intro r
    rw [List.foldl_cons, processDomain_eq]
    by_cases h : matchesDomain qn d = true
    · rw [if_pos h, ih]
      simp [List.filter_cons, h, List.append_assoc]
    · rw [if_neg h, ih]
      simp [List.filter_cons, h]

/-- Closed form of dns_responseWith when the codec can render the qtype. -/
theorem dns_responseWith_eq (domains : List Domain) (request : Query) (qt : String)
    (hqt : QTYPE_rev request.q.qtype = some qt) :
    dns_responseWith domains request = .ok
      { header := ⟨request.id, 1, 1, 1⟩,
        q := request.q,
        rr := (domains.filter (matchesDomain request.q.qname)).flatMap
            (domainAnswers request.q.qname qt),
        auth := (domains.filter (matchesDomain request.q.qname)).map domainSOA,
        ar := (domains.filter (matchesDomain request.q.qname)).flatMap domainNS } := by
  unfold dns_responseWith
  rw [hqt]
  dsimp only
  rw [foldl_domains]
  simp

/-- C1: for every configured zone and every configured owner-name in its
record mapping, resolving a query for that name with qtype A yields a
response whose answer section is exactly the type-A records stored under the
name (in configured order, rclass 1, ttl = zone ttl), whose authority
section is exactly the zone's SOA record and whose additional section is
exactly the zone's NS records. -/
theorem claim_C1 (d : Domain) (hd : d ∈ DOMAINS) (p : String × List RData)
    (hp : p ∈ d.records) (tid : Nat) :
    ∃ r, dns_response ⟨tid, ⟨p.1, 1⟩⟩ = .ok r ∧
      r.rr = (p.2.filter isARecord).map (fun rdata => RR.mk p.1 1 1 d.ttl rdata) ∧
      r.auth = [domainSOA d] ∧
      r.ar = domainNS d := by
  simp only [DOMAINS, List.mem_singleton] at hd
  subst hd
  fin_cases hp <;>
    (refine ⟨_, dns_responseWith_eq DOMAINS _ "A" rfl, ?_, ?_, ?_⟩ <;> (dsimp only; decide))

/-- Witness for C1 at the owner-name ns1.example.com. of the configured
zone. -/
theorem claim_C1_witness :
    ∃ r, dns_response ⟨0, ⟨"ns1.example.com.", 1⟩⟩ = .ok r ∧
      r.rr = [RR.mk "ns1.example.com." 1 1 300 (RData.A "192.168.0.100")] ∧
      r.auth = [domainSOA (mkDomain "example.com." "192.168.0.100" (60 * 5))] ∧
      r.ar = domainNS (mkDomain "example.com." "192.168.0.100" (60 * 5)) :=
  claim_C1 (mkDomain "example.com." "192.168.0.100" (60 * 5)) (by decide)
    ("ns1.example.com.", [RData.A "192.168.0.100"]) (by decide) 0

/-- C2 (code bug evidence): a query for the configured apex with the wildcard
qtype 255 gets an empty answer section even though the zone matched (its SOA
is in the authority section) and six records are stored under the apex.
dnslib renders qtype 255 as the string "ANY", while the inclusion test of
dns_response compares the rendered qtype against the literal "*" or the
record class name, so no record is ever included for a wildcard query. -/
theorem claim_C2_eval :
    (dns_response ⟨0, ⟨"example.com.", 255⟩⟩).map (fun r => (r.rr, r.auth))
      = Except.ok ([], [domainSOA (mkDomain "example.com." "192.168.0.100" (60 * 5))]) ∧
    ((mkDomain "example.com." "192.168.0.100" (60 * 5)).records.filter
      (fun pr => pr.1 == "example.com.")).flatMap (fun pr => pr.2) ≠ [] := by
  constructor
  · decide
  · decide

/-- C3: a parseable query (one the codec fully renders, so its qtype is in
the QTYPE table) whose qname matches no configured zone, neither by apex
equality nor by dot-suffix, produces a well-formed reply with empty answer,
authority and additional sections and the QR flag set, without raising. -/
theorem claim_C3 (q : Query) (qt : String) (hqt : QTYPE_rev q.q.qtype = some qt)
    (hnm : ∀ d ∈ DOMAINS, matchesDomain q.q.qname d = false) :
    ∃ r, dns_response q = .ok r ∧
      r.rr = [] ∧ r.auth = [] ∧ r.ar = [] ∧ r.header.qr = 1 := by
  have hfil : DOMAINS.filter (matchesDomain q.q.qname) = [] := by
    rw [List.filter_eq_nil_iff]
    intro d hd
    simp [hnm d hd]
  exact ⟨_, dns_responseWith_eq DOMAINS q qt hqt,
    by simp [hfil], by simp [hfil], by simp [hfil], rfl⟩

/-- Witness for C3 at the unmatched name other-domain.test. with qtype A. -/
theorem claim_C3_witness :
    ∃ r, dns_response ⟨0, ⟨"other-domain.test.", 1⟩⟩ = .ok r ∧
      r.rr = [] ∧ r.auth = [] ∧ r.ar = [] ∧ r.header.qr = 1 :=
  claim_C3 ⟨0, ⟨"other-domain.test.", 1⟩⟩ "A" rfl (by decide)

/-- C4: whenever the qname falls inside a configured zone (apex equality or
dot-suffix match), the reply's authority section is exactly that zone's SOA
record and its additional section exactly its NS records (rname = zone apex,
ttl = zone ttl), for every renderable qtype and also when no owner-name
entry matches the qname. -/
theorem claim_C4 (q : Query) (qt : String) (hqt : QTYPE_rev q.q.qtype = some qt)
    (d : Domain) (hd : d ∈ DOMAINS) (hm : matchesDomain q.q.qname d = true) :
    ∃ r, dns_response q = .ok r ∧ r.auth = [domainSOA d] ∧ r.ar = domainNS d := by
  simp only [DOMAINS, List.mem_singleton] at hd
  subst hd
  have hfil : DOMAINS.filter (matchesDomain q.q.qname)
      = [mkDomain "example.com." "192.168.0.100" (60 * 5)] := by
    simp [DOMAINS, List.filter_cons, hm]
  exact ⟨_, dns_responseWith_eq DOMAINS q qt hqt, by simp [hfil], by simp [hfil]⟩

/-- Witness for C4 at qname unknown.example.com. (suffix match, no owner-name
entry) with qtype MX. -/
theorem claim_C4_witness :
    ∃ r, dns_response ⟨0, ⟨"unknown.example.com.", 15⟩⟩ = .ok r ∧
      r.auth = [domainSOA (mkDomain "example.com." "192.168.0.100" (60 * 5))] ∧
      r.ar = domainNS (mkDomain "example.com." "192.168.0.100" (60 * 5)) :=
  claim_C4 ⟨0, ⟨"unknown.example.com.", 15⟩⟩ "MX" rfl
    (mkDomain "example.com." "192.168.0.100" (60 * 5)) (by decide) (by decide)

/-- C7: every reply dns_response returns carries the query's transaction id
and has QR, AA and RA all set to 1, whatever the qname, qtype and match
outcome. -/
theorem claim_C7 (q : Query) (r : Reply) (h : dns_response q = .ok r) :
    r.header = ⟨q.id, 1, 1, 1⟩ := by
  cases hq : QTYPE_rev q.q.qtype with
  | none =>
    unfold dns_response dns_responseWith at h
    rw [hq] at h
    cases h
  | some qt =>
    have h2 := (dns_responseWith_eq DOMAINS q qt hq).symm.trans h
    cases Except.ok.inj h2
    rfl

/-- Witness for C7 at a no-match query with id 7. -/
theorem claim_C7_witness :
    (Reply.mk ⟨7, 1, 1, 1⟩ ⟨"x.", 1⟩ [] [] []).header = ⟨7, 1, 1, 1⟩ :=
  claim_C7 ⟨7, ⟨"x.", 1⟩⟩ (Reply.mk ⟨7, 1, 1, 1⟩ ⟨"x.", 1⟩ [] [] []) (by decide)

/-- C10: every reply dns_response returns contains the question section
copied from the query (qname and qtype echoed back), also in the no-match
case. -/
theorem claim_C10 (q : Query) (r : Reply) (h : dns_response q = .ok r) :
    r.q = q.q := by
  cases hq : QTYPE_rev q.q.qtype with
  | none =>
    unfold dns_response dns_responseWith at h
    rw [hq] at h
    cases h
  | some qt =>
    have h2 := (dns_responseWith_eq DOMAINS q qt hq).symm.trans h
    cases Except.ok.inj h2
    rfl

/-- Witness for C10 at a no-match query with qtype NS. -/
theorem claim_C10_witness :
    (Reply.mk ⟨9, 1, 1, 1⟩ ⟨"y.", 2⟩ [] [] []).q = ⟨"y.", 2⟩ :=
  claim_C10 ⟨9, ⟨"y.", 2⟩⟩ (Reply.mk ⟨9, 1, 1, 1⟩ ⟨"y.", 2⟩ [] [] []) (by decide)

/-- C8 (counterexample): with two configured zones that both match the query
name sub.example.com., the authority section holds the SOA records of BOTH
zones, not only the first configured match — later matching zones do
contribute. -/
theorem claim_C8_cex :
    (dns_responseWith twoZones ⟨0, ⟨"sub.example.com.", 1⟩⟩).map (fun r => r.auth)
      = Except.ok [domainSOA (mkDomain "sub.example.com." "10.0.0.1" 100),
                   domainSOA (mkDomain "example.com." "192.168.0.100" (60 * 5))] ∧
    [domainSOA (mkDomain "sub.example.com." "10.0.0.1" 100),
     domainSOA (mkDomain "example.com." "192.168.0.100" (60 * 5))]
      ≠ [domainSOA (mkDomain "sub.example.com." "10.0.0.1" 100)] := by
  constructor
  · decide
  · decide

/-- C8 (amended): when several configured zones match the qname, every
matching zone contributes, in configuration order: the answer, authority and
additional sections are the concatenations, over the matching zones in
configured order, of each zone's matching answers, its SOA record and its NS
records respectively. -/
theorem claim_C8_amended (domains : List Domain) (request : Query) (qt : String)
    (hqt : QTYPE_rev request.q.qtype = some qt) :
    dns_responseWith domains request = .ok
      { header := ⟨request.id, 1, 1, 1⟩,
        q := request.q,
        rr := (domains.filter (matchesDomain request.q.qname)).flatMap
            (domainAnswers request.q.qname qt),
        auth := (domains.filter (matchesDomain request.q.qname)).map domainSOA,
        ar := (domains.filter (matchesDomain request.q.qname)).flatMap domainNS } :=
  dns_responseWith_eq domains request qt hqt

/-- Witness for the amended C8 on the overlapping two-zone configuration. -/
theorem claim_C8_witness :
    dns_responseWith twoZones ⟨0, ⟨"sub.example.com.", 1⟩⟩ = .ok
      { header := ⟨0, 1, 1, 1⟩,
        q := ⟨"sub.example.com.", 1⟩,
        rr := (twoZones.filter (matchesDomain "sub.example.com.")).flatMap
            (domainAnswers "sub.example.com." "A"),
        auth := (twoZones.filter (matchesDomain "sub.example.com.")).map domainSOA,
        ar := (twoZones.filter (matchesDomain "sub.example.com.")).flatMap domainNS } :=
  claim_C8_amended twoZones ⟨0, ⟨"sub.example.com.", 1⟩⟩ "A" rfl

/-- C9: whatever each stage of one request's handling produces — the framing
stage, the parse-and-resolve stage, the send stage — the handler either
replies or catches the stage's error and logs it; it always terminates in
one of these two outcomes and never re-raises, so a bad request cannot
escape its handler. -/
theorem claim_C9 (buf : List Nat) (parse : List Nat → Except String Query)
    (send : Reply → Except String Unit) :
    handleRequest (get_data buf) (fun d => (parse d).bind dns_response) send = .replied ∨
    ∃ e, handleRequest (get_data buf) (fun d => (parse d).bind dns_response) send = .logged e := by
  unfold handleRequest
  cases get_data buf with
  | error e => exact .inr ⟨e, rfl⟩
  | ok d =>
    dsimp only
    cases (parse d).bind dns_response with
    | error e => exact .inr ⟨e, rfl⟩
    | ok reply =>
      dsimp only
      cases send reply with
      | error e => exact .inr ⟨e, rfl⟩
      | ok u => exact .inl rfl

/-- Strip is the identity on a byte list whose first byte and last byte are
not ASCII whitespace. -/
theorem stripBytes_eq_self (l : List Nat)
    (h1 : l.head?.all (fun a => !asciiWhitespace a) = true)
    (h2 : l.getLast?.all (fun b => !asciiWhitespace b) = true) :
    stripBytes l = l := by
  unfold stripBytes
  have hd : l.dropWhile asciiWhitespace = l := by
    cases l with
    | nil => rfl
    | cons a t =>
      simp only [List.head?_cons, Option.all_some] at h1
      rw [List.dropWhile_cons, if_neg (by simpa using h1)]
  rw [hd]
  have hr : l.reverse.dropWhile asciiWhitespace = l.reverse := by
    cases hrev : l.reverse with
    | nil => rfl
    | cons b t =>
      have hb : l.getLast? = some b := by
        rw [← List.head?_reverse, hrev, List.head?_cons]
      rw [hb, Option.all_some] at h2
      rw [List.dropWhile_cons, if_neg (by simpa using h2)]
  rw [hr, List.reverse_reverse]

/-- get_data expressed through the stripped receive buffer, when the latter
has at least two bytes. -/
theorem get_data_eq (buf : List Nat) (b0 b1 : Nat) (rest : List Nat)
    (h : stripBytes buf = b0 :: b1 :: rest) :
    get_data buf =
      if b0 * 256 + b1 < rest.length then .error "Wrong size of TCP packet"
      else if b0 * 256 + b1 > rest.length then .error "Too big TCP packet"
      else .ok rest := by
  unfold get_data
  rw [h]
  have hlen : (b0 :: b1 :: rest).length - 2 = rest.length := by simp
  dsimp only [unpackH]
  rw [hlen]
  simp

/-- C5 (counterexample): the one-byte payload 0x20 (an ASCII space) is not
reconstructed by the framing round trip: the receive side strips the
trailing space, so the declared length 1 exceeds the zero remaining bytes
and get_data raises the "Too big TCP packet" framing error instead of
returning the payload. -/
theorem claim_C5_cex : ¬ (tcpRoundTrip [32] = Except.ok [32]) := by decide

/-- C5 (amended): the length-prefix encode/decode round trip is lossless for
every payload that fits in a single 8192-byte receive (length at most 8190)
and is unaffected by the receiver's whitespace strip, namely the high byte
of its two-byte length is not an ASCII-whitespace value and its last byte,
when the payload is nonempty, is not ASCII whitespace. -/
theorem claim_C5_amended (P : List Nat) (hlen : P.length ≤ 8190)
    (hhi : asciiWhitespace (P.length / 256) = false)
    (hlast : P.getLast?.all (fun b => !asciiWhitespace b) = true) :
    tcpRoundTrip P = Except.ok P := by
  have hfit : P.length < 65536 := by omega
  have hsend : send_data P = .ok ([P.length / 256, P.length % 256] ++ P) := by
    unfold send_data packH
    rw [if_pos hfit]
    rfl
  have htake : ([P.length / 256, P.length % 256] ++ P).take 8192
      = [P.length / 256, P.length % 256] ++ P := by
    apply List.take_of_length_le
    simp
    omega
  unfold tcpRoundTrip
  rw [hsend]
  show get_data (([P.length / 256, P.length % 256] ++ P).take 8192) = Except.ok P
  rw [htake]
  have hstrip : stripBytes ([P.length / 256, P.length % 256] ++ P)
      = P.length / 256 :: P.length % 256 :: P := by
    apply stripBytes_eq_self
    · simp only [List.cons_append, List.nil_append, List.head?_cons, Option.all_some]
      simp [hhi]
    · rw [List.getLast?_append]
      cases hP : P.getLast? with
      | none =>
        have : P = [] := by
          cases P with
          | nil => rfl
          | cons x t => rw [List.getLast?_eq_getLast] at hP <;> simp_all
        subst this
        decide
      | some c =>
        rw [hP, Option.all_some] at hlast
        simp [hlast]
  rw [get_data_eq _ _ _ _ hstrip]
  have hsum : P.length / 256 * 256 + P.length % 256 = P.length := by omega
  rw [hsum]
  simp

/-- Witness for the amended C5 at the one-byte payload 0x41. -/
theorem claim_C5_witness : tcpRoundTrip [65] = Except.ok [65] :=
  claim_C5_amended [65] (by decide) (by decide) (by decide)

/-- C6 (counterexample): the receive buffer 0x20 0x00 0x01 0x41 has raw first
two bytes declaring length 8192 while 2 bytes remain after them, yet
get_data raises no framing error and returns 0x41 — which is also not the
raw remainder 0x01 0x41 — because the leading space byte is stripped before
the length is read. -/
theorem claim_C6_cex :
    get_data [32, 0, 1, 65] = Except.ok [65] ∧ ([65] : List Nat) ≠ [1, 65] := by
  constructor
  · decide
  · decide

/-- C6 (amended): the declared-length validation applies to the receive
buffer after stripping ASCII whitespace from both ends: whenever the
stripped buffer has at least two bytes, a declared big-endian length smaller
than the remaining stripped byte count raises the "Wrong size of TCP packet"
framing error, a larger one raises the "Too big TCP packet" framing error,
and the stripped bytes after the two-byte length are returned exactly on
equality. -/
theorem claim_C6_amended (buf : List Nat) (b0 b1 : Nat) (rest : List Nat)
    (h : stripBytes buf = b0 :: b1 :: rest) :
    (b0 * 256 + b1 < rest.length → get_data buf = .error "Wrong size of TCP packet") ∧
    (b0 * 256 + b1 > rest.length → get_data buf = .error "Too big TCP packet") ∧
    (b0 * 256 + b1 = rest.length → get_data buf = .ok rest) := by
  rw [get_data_eq buf b0 b1 rest h]
  refine ⟨?_, ?_, ?_⟩
  · intro hlt
    rw [if_pos hlt]
  · intro hgt
    rw [if_neg (by omega), if_pos hgt]
  · intro heq
    rw [if_neg (by omega), if_neg (by omega)]

/-- Witness for the amended C6 at the well-formed buffer 0x00 0x01 0x41. -/
theorem claim_C6_witness :
    (0 * 256 + 1 < ([65] : List Nat).length →
        get_data [0, 1, 65] = .error "Wrong size of TCP packet") ∧
    (0 * 256 + 1 > ([65] : List Nat).length →
        get_data [0, 1, 65] = .error "Too big TCP packet") ∧
    (0 * 256 + 1 = ([65] : List Nat).length → get_data [0, 1, 65] = .ok [65]) :=
  claim_C6_amended [0, 1, 65] 0 1 [65] (by decide)

end DNSServer
